import Mathlib

/-!
Shallow embedding of the resilient execution engine of the LinkedIn
post-automation pipeline (`src/core/retry.py`, `src/core/cost_tracking.py`,
`src/core/persistence.py`, `src/core/fallback_tracker.py`,
`src/orchestrator.py`), together with theorems settling the spec claims.

Python's mutable state is modelled by explicit state passing; `raise` is
modelled by sum types (`Except` or explicit outcome inductives); floats that
hold money are modelled by `ℚ`; file systems by finite-support functions from
path strings to file contents.
-/

namespace LinkedInPipeline

/-! ## Circuit breaker (`src/core/retry.py`, class `CircuitBreaker`) -/

/-- State of the circuit breaker: `consecutive_failures` and the
`max_failures` threshold (`CircuitBreaker` dataclass, retry.py lines 17-43). -/
structure CircuitBreaker where
  consecutive_failures : Nat
  max_failures : Nat
  deriving Repr, DecidableEq

/-- `create_circuit_breaker()` / dataclass defaults: 0 failures, threshold 3. -/
def create_circuit_breaker : CircuitBreaker :=
  { consecutive_failures := 0, max_failures := 3 }

/-- `CircuitBreaker.record_failure`: increments the counter, then raises
`CircuitBreakerTrippedError` when the incremented counter reaches the
threshold.  Returns the post-call state together with `true` when the call
raised.  (The Python increment happens before the raise, so the state change
persists even on the raising call.) -/
def CircuitBreaker.record_failure (cb : CircuitBreaker) : CircuitBreaker × Bool :=
  let cb' : CircuitBreaker :=
    { cb with consecutive_failures := cb.consecutive_failures + 1 }
  (cb', decide (cb'.max_failures ≤ cb'.consecutive_failures))

/-- `CircuitBreaker.record_success`: resets the counter to 0. -/
def CircuitBreaker.record_success (cb : CircuitBreaker) : CircuitBreaker :=
  { cb with consecutive_failures := 0 }

/-- `CircuitBreaker.is_tripped`. -/
def CircuitBreaker.is_tripped (cb : CircuitBreaker) : Bool :=
  decide (cb.max_failures ≤ cb.consecutive_failures)

/-- Apply `record_failure` `n` times (keeping only the state, as the Python
object keeps mutating whether or not a call raised). -/
def failN : Nat → CircuitBreaker → CircuitBreaker
  | 0, cb => cb
  | n + 1, cb => failN n (cb.record_failure).1

/-- Whether the `(n+1)`-st consecutive `record_failure` call (counting from a
given start state) raises. -/
def nthFailureRaises (cb : CircuitBreaker) (n : Nat) : Bool :=
  ((failN n cb).record_failure).2

lemma failN_consecutive (mf : Nat) :
    ∀ (n c : Nat), (failN n ⟨c, mf⟩).consecutive_failures = c + n ∧
      (failN n ⟨c, mf⟩).max_failures = mf := by
  intro n
  induction n with
  | zero => intro c; simp [failN]
  | succ k ih =>
      intro c
      have h := ih (c + 1)
      simpa [failN, CircuitBreaker.record_failure, Nat.add_comm, Nat.add_assoc,
        Nat.add_left_comm] using h

/-! ## Retry executor (`src/core/retry.py`) -/

/-- A `BaseAgentError` (errors.py): message plus the `retryable` flag fixed at
construction (the retry executor may later flip it for quota errors). -/
structure AgentError where
  message : String
  retryable : Bool
  deriving Repr, DecidableEq

/-- Result of one invocation of the wrapped step function: normal return,
a raised `BaseAgentError`, or a raised non-`BaseAgentError` exception. -/
inductive StepResult (α : Type) where
  | ok (a : α)
  | agentError (e : AgentError)
  | otherError (msg : String)
  deriving Repr, DecidableEq

/-- Python's `needle in haystack` on strings, as contiguous-substring search
over the character lists. -/
def occursIn (needle : List Char) : List Char → Bool
  | [] => needle.isEmpty
  | c :: rest => needle.isPrefixOf (c :: rest) || occursIn needle rest

/-- Python's `str.lower()`: character-wise lower-casing. -/
def pyLower (s : String) : String := String.mk (s.data.map Char.toLower)

/-- `_is_quota_or_rate_limit_error` (retry.py lines 52-63): case-insensitive
substring search for the four quota / rate-limit markers. -/
def IsQuotaOrRateLimitError (message : String) : Bool :=
  let lowered := pyLower message
  ["resource_exhausted", "quota exceeded", "exceeded your current quota",
    "rate limit"].any fun keyword => occursIn keyword.data lowered.data

/-- The suffix appended to a quota / rate-limit error's message before it is
re-raised as non-retryable. -/
def quotaSuffix : String := " | Resolve quota/billing or wait for limits to reset."

/-- `exponential_backoff(attempt, base_seconds) = base_seconds * 2^(attempt-1)`
(retry.py lines 66-87; `attempt` is 1-indexed). -/
def exponential_backoff (attempt : Nat) (base_seconds : ℚ) : ℚ :=
  base_seconds * 2 ^ (attempt - 1)

/-- Terminal outcome of `execute_with_retries`: normal return, a raised
`BaseAgentError` (non-retryable, quota-reclassified, or retries exhausted),
a raised `CircuitBreakerTrippedError` (from `record_failure`), a raised
non-`BaseAgentError` exception, or the unreachable final `RuntimeError`. -/
inductive RetryOutcome (α : Type) where
  | success (a : α)
  | raised (e : AgentError)
  | breakerTripped
  | raisedOther (msg : String)
  | runtimeError
  deriving Repr, DecidableEq

/-- Observable trace of one `execute_with_retries` call: terminal outcome,
number of invocations of the step function, the sequence of sleeps performed
(backoff delays, in order), and the final circuit-breaker state. -/
structure RetryTrace (α : Type) where
  outcome : RetryOutcome α
  invocations : Nat
  sleeps : List ℚ
  breaker : Option CircuitBreaker
  deriving Repr, DecidableEq

/-- The `for attempt in range(1, max_attempts + 1)` loop of
`execute_with_retries` (retry.py lines 90-172).  `step n` is the result of the
`n`-th invocation (1-indexed).  `fuel` is the number of loop iterations still
allowed (`max_attempts - attempt + 1` at entry); `fuel = 0` is fall-through
out of the loop, which re-raises the recorded last error (or hits the final
`RuntimeError` when the loop never ran). -/
def retryGo {α : Type} (step : Nat → StepResult α) (max_attempts : Nat)
    (base_delay : ℚ) :
    Nat → Nat → Nat → Option CircuitBreaker → List ℚ → Option AgentError →
    RetryTrace α
  | 0, _, invs, cb, sleeps, lastE =>
      { outcome := match lastE with
          | some e => .raised e
          | none => .runtimeError
        invocations := invs, sleeps := sleeps, breaker := cb }
  | fuel + 1, attempt, invs, cb, sleeps, _lastE =>
      match step attempt with
      | .ok a =>
          { outcome := .success a, invocations := invs + 1, sleeps := sleeps,
            breaker := cb.map CircuitBreaker.record_success }
      | .agentError e =>
          if e.retryable && IsQuotaOrRateLimitError e.message then
            let e' : AgentError :=
              { message := e.message ++ quotaSuffix, retryable := false }
            { outcome := .raised e', invocations := invs + 1, sleeps := sleeps,
              breaker := cb }
          else if !e.retryable then
            { outcome := .raised e, invocations := invs + 1, sleeps := sleeps,
              breaker := cb }
          else
            match cb with
            | some b =>
                let rf := b.record_failure
                if rf.2 then
                  { outcome := .breakerTripped, invocations := invs + 1,
                    sleeps := sleeps, breaker := some rf.1 }
                else if attempt == max_attempts then
                  { outcome := .raised e, invocations := invs + 1,
                    sleeps := sleeps, breaker := some rf.1 }
                else
                  retryGo step max_attempts base_delay fuel (attempt + 1)
                    (invs + 1) (some rf.1)
                    (sleeps ++ [exponential_backoff attempt base_delay]) (some e)
            | none =>
                if attempt == max_attempts then
                  { outcome := .raised e, invocations := invs + 1,
                    sleeps := sleeps, breaker := none }
                else
                  retryGo step max_attempts base_delay fuel (attempt + 1)
                    (invs + 1) none
                    (sleeps ++ [exponential_backoff attempt base_delay]) (some e)
      | .otherError msg =>
          match cb with
          | some b =>
              let rf := b.record_failure
              if rf.2 then
                { outcome := .breakerTripped, invocations := invs + 1,
                  sleeps := sleeps, breaker := some rf.1 }
              else
                { outcome := .raisedOther msg, invocations := invs + 1,
                  sleeps := sleeps, breaker := some rf.1 }
          | none =>
              { outcome := .raisedOther msg, invocations := invs + 1,
                sleeps := sleeps, breaker := none }

/-- `execute_with_retries(func, max_attempts, circuit_breaker, base_delay)`. -/
def execute_with_retries {α : Type} (step : Nat → StepResult α)
    (max_attempts : Nat) (circuit_breaker : Option CircuitBreaker)
    (base_delay : ℚ) : RetryTrace α :=
  retryGo step max_attempts base_delay max_attempts 1 0 circuit_breaker [] none

lemma retryGo_retryable_step {α : Type} (step : Nat → StepResult α)
    (maxA : Nat) (base : ℚ) (fuel attempt invs : Nat) (sleeps : List ℚ)
    (lastE : Option AgentError) (e : AgentError)
    (hstep : step attempt = .agentError e) (hr : e.retryable = true)
    (hq : IsQuotaOrRateLimitError e.message = false) (ha : attempt ≠ maxA) :
    retryGo step maxA base (fuel + 1) attempt invs none sleeps lastE =
      retryGo step maxA base fuel (attempt + 1) (invs + 1) none
        (sleeps ++ [exponential_backoff attempt base]) (some e) := by
  simp [retryGo, hstep, hr, hq, ha]

lemma retryGo_retryable_last {α : Type} (step : Nat → StepResult α)
    (maxA : Nat) (base : ℚ) (fuel invs : Nat) (sleeps : List ℚ)
    (lastE : Option AgentError) (e : AgentError)
    (hstep : step maxA = .agentError e) (hr : e.retryable = true)
    (hq : IsQuotaOrRateLimitError e.message = false) :
    retryGo step maxA base (fuel + 1) maxA invs none sleeps lastE =
      { outcome := .raised e, invocations := invs + 1, sleeps := sleeps,
        breaker := none } := by
  simp [retryGo, hstep, hr, hq]

lemma retryGo_always_retryable {α : Type} (e : Nat → AgentError) (maxA : Nat)
    (base : ℚ) (hr : ∀ n, (e n).retryable = true)
    (hq : ∀ n, IsQuotaOrRateLimitError (e n).message = false) :
    ∀ (r attempt invs : Nat) (sleeps : List ℚ) (lastE : Option AgentError),
      1 ≤ r → attempt + r = maxA + 1 →
      retryGo (α := α) (fun n => .agentError (e n)) maxA base r attempt invs
          none sleeps lastE =
        { outcome := .raised (e maxA), invocations := invs + r,
          sleeps := sleeps ++ (List.range (r - 1)).map
            (fun i => exponential_backoff (attempt + i) base),
          breaker := none } := by
  intro r
  induction r with
  | zero => intro attempt invs sleeps lastE h1; omega
  | succ k ih =>
      intro attempt invs sleeps lastE _h1 hsum
      match k, ih with
      | 0, _ =>
          have ha : attempt = maxA := by omega
          subst ha
          rw [retryGo_retryable_last (α := α) _ attempt base 0 invs sleeps
            lastE (e attempt) rfl (hr attempt) (hq attempt)]
          simp
      | k' + 1, ih =>
          have ha : attempt ≠ maxA := by omega
          rw [retryGo_retryable_step (α := α) _ maxA base (k' + 1) attempt invs
            sleeps lastE (e attempt) rfl (hr attempt) (hq attempt) ha]
          rw [ih (attempt + 1) (invs + 1)
            (sleeps ++ [exponential_backoff attempt base]) (some (e attempt))
            (by omega) (by omega)]
          have hmap : (List.range (k' + 1 + 1 - 1)).map
              (fun i => exponential_backoff (attempt + i) base) =
              exponential_backoff attempt base ::
                (List.range (k' + 1 - 1)).map
                  (fun i => exponential_backoff (attempt + 1 + i) base) := by
            simp only [Nat.add_sub_cancel, List.range_succ_eq_map,
              List.map_cons, List.map_map]
            congr 1
            apply List.map_congr_left
            intro a _
            show exponential_backoff (attempt + Nat.succ a) base =
              exponential_backoff (attempt + 1 + a) base
            have harith : attempt + Nat.succ a = attempt + 1 + a := by omega
            rw [harith]
          rw [hmap, List.append_assoc]
          have hinv : invs + 1 + (k' + 1) = invs + (k' + 1 + 1) := by omega
          rw [hinv]
          simp

/-- C2: a step function that raises a retryable non-quota `BaseAgentError` on
every invocation is invoked exactly `max_attempts` times by
`execute_with_retries` (with the default absent circuit breaker); the executor
sleeps the exponential-backoff delay after each attempt except the last, and
the single terminal outcome is the re-raised original error of the last
attempt. -/
theorem claim_C2_retry_bound {α : Type} (e : Nat → AgentError) (maxA : Nat)
    (base : ℚ) (h1 : 1 ≤ maxA) (hr : ∀ n, (e n).retryable = true)
    (hq : ∀ n, IsQuotaOrRateLimitError (e n).message = false) :
    execute_with_retries (α := α) (fun n => .agentError (e n)) maxA none base =
      { outcome := .raised (e maxA), invocations := maxA,
        sleeps := (List.range (maxA - 1)).map
          (fun i => exponential_backoff (1 + i) base),
        breaker := none } := by
  have h := retryGo_always_retryable (α := α) e maxA base hr hq maxA 1 0 [] none
    h1 (by omega)
  simpa using h

/-- Witness for C2 at a concrete always-failing step (3 attempts, base 1s). -/
theorem claim_C2_retry_bound_witness :
    execute_with_retries (α := Nat)
        (fun _ => .agentError { message := "", retryable := true }) 3 none 1 =
      { outcome := .raised { message := "", retryable := true },
        invocations := 3,
        sleeps := (List.range 2).map (fun i => exponential_backoff (1 + i) 1),
        breaker := none } :=
  claim_C2_retry_bound (fun _ => { message := "", retryable := true }) 3 1
    (by decide) (fun _ => rfl) (fun _ => rfl)

/-- C3: starting from the freshly-created breaker state `Closed(0)` with
threshold `mf`, the `(n+1)`-st consecutive `record_failure` call (with no
intervening success) raises `CircuitBreakerTrippedError` exactly when the
threshold has been reached, i.e. iff `mf ≤ n + 1`; in particular fewer than
`mf` consecutive failures never raise, and once `mf` failures have occurred
any further failure raises.  A single `record_success` after any number of
failures resets `consecutive_failures` to 0, and the default threshold of
`create_circuit_breaker` is 3. -/
theorem claim_C3_circuit_breaker (mf n : Nat) :
    (nthFailureRaises ⟨0, mf⟩ n = true ↔ mf ≤ n + 1)
    ∧ (CircuitBreaker.record_success (failN n ⟨0, mf⟩)).consecutive_failures = 0
    ∧ create_circuit_breaker = ⟨0, 3⟩ := by
  refine ⟨?_, by simp [CircuitBreaker.record_success], rfl⟩
  have h := failN_consecutive mf n 0
  simp only [nthFailureRaises, CircuitBreaker.record_failure, h.1, h.2,
    Nat.zero_add, decide_eq_true_eq]

/-- C8: if the step's first invocation raises a retryable `BaseAgentError`
whose message contains (case-insensitively) one of the four quota /
rate-limit markers, `execute_with_retries` flips the error's `retryable` flag
to `false`, appends the quota advice to its message and re-raises it
immediately: exactly one invocation, no sleep, and the circuit breaker is
passed through untouched. -/
theorem claim_C8_quota_not_retried {α : Type} (step : Nat → StepResult α)
    (e : AgentError) (cb : Option CircuitBreaker) (maxA : Nat) (base : ℚ)
    (h1 : 1 ≤ maxA) (hstep : step 1 = .agentError e) (hr : e.retryable = true)
    (hq : ∃ k ∈ ["resource_exhausted", "quota exceeded",
      "exceeded your current quota", "rate limit"],
      occursIn k.data (pyLower e.message).data = true) :
    execute_with_retries step maxA cb base =
      { outcome := .raised ⟨e.message ++ quotaSuffix, false⟩,
        invocations := 1, sleeps := [], breaker := cb } := by
  have hquota : IsQuotaOrRateLimitError e.message = true := by
    simp only [IsQuotaOrRateLimitError, List.any_eq_true]
    obtain ⟨k, hk, hocc⟩ := hq
    exact ⟨k, hk, hocc⟩
  obtain ⟨r, rfl⟩ : ∃ r, maxA = r + 1 := ⟨maxA - 1, by omega⟩
  simp [execute_with_retries, retryGo, hstep, hr, hquota]

/-- Witness for C8: a concrete rate-limit error with mixed case is raised
unchanged after a single invocation, reclassified as non-retryable, with the
fresh breaker untouched. -/
theorem claim_C8_quota_not_retried_witness :
    execute_with_retries (α := Nat)
        (fun _ => .agentError { message := "Rate Limit hit", retryable := true })
        3 (some create_circuit_breaker) 1 =
      { outcome := .raised ⟨"Rate Limit hit" ++ quotaSuffix, false⟩,
        invocations := 1, sleeps := [],
        breaker := some create_circuit_breaker } :=
  claim_C8_quota_not_retried
    (fun _ => .agentError { message := "Rate Limit hit", retryable := true })
    { message := "Rate Limit hit", retryable := true }
    (some create_circuit_breaker) 3 1 (by decide) rfl rfl
    ⟨"rate limit", by decide, by decide⟩

/-- C10: if the step's first invocation raises an exception that is not a
`BaseAgentError`, it propagates immediately (one invocation, no sleep), but —
unlike a non-retryable `BaseAgentError`, which leaves the breaker untouched —
the circuit breaker's `consecutive_failures` counter is incremented first, and
when the incremented counter reaches the threshold the terminal outcome is
`CircuitBreakerTrippedError` instead of the original exception. -/
theorem claim_C10_unexpected_exception {α : Type}
    (step step2 : Nat → StepResult α) (msg : String) (e : AgentError)
    (b : CircuitBreaker) (maxA : Nat) (base : ℚ) (h1 : 1 ≤ maxA)
    (hstep : step 1 = .otherError msg) (hstep2 : step2 1 = .agentError e)
    (he : e.retryable = false) :
    (execute_with_retries step maxA (some b) base =
      { outcome :=
          if b.max_failures ≤ b.consecutive_failures + 1 then .breakerTripped
          else .raisedOther msg,
        invocations := 1, sleeps := [],
        breaker := some ⟨b.consecutive_failures + 1, b.max_failures⟩ })
    ∧ execute_with_retries step2 maxA (some b) base =
      { outcome := .raised e, invocations := 1, sleeps := [],
        breaker := some b } := by
  obtain ⟨r, rfl⟩ : ∃ r, maxA = r + 1 := ⟨maxA - 1, by omega⟩
  constructor
  · simp only [execute_with_retries, retryGo, hstep,
      CircuitBreaker.record_failure]
    by_cases htrip : b.max_failures ≤ b.consecutive_failures + 1 <;>
      simp [htrip]
  · simp [execute_with_retries, retryGo, hstep2, he]

/-- Witness for C10 at a breaker one failure below its threshold: the
non-`BaseAgentError` exception trips the breaker, while the non-retryable
`BaseAgentError` leaves it untouched. -/
theorem claim_C10_unexpected_exception_witness :
    (execute_with_retries (α := Nat) (fun _ => .otherError "kaboom") 3
        (some ⟨2, 3⟩) 1 =
      { outcome := if (3 : Nat) ≤ 2 + 1 then .breakerTripped
          else .raisedOther "kaboom",
        invocations := 1, sleeps := [], breaker := some ⟨2 + 1, 3⟩ })
    ∧ execute_with_retries (α := Nat)
        (fun _ => .agentError { message := "bad", retryable := false }) 3
        (some ⟨2, 3⟩) 1 =
      { outcome := .raised { message := "bad", retryable := false },
        invocations := 1, sleeps := [], breaker := some ⟨2, 3⟩ } :=
  claim_C10_unexpected_exception (fun _ => .otherError "kaboom")
    (fun _ => .agentError { message := "bad", retryable := false }) "kaboom"
    { message := "bad", retryable := false } ⟨2, 3⟩ 3 1 (by decide) rfl rfl rfl

/-! ## Orchestrator bounded loops (`src/orchestrator.py`) -/

/-- `Orchestrator.MAX_CHAR_COUNT` (orchestrator.py line 61). -/
def MAX_CHAR_COUNT : Nat := 3000

/-- `Orchestrator.TARGET_CHAR_COUNT` (orchestrator.py line 62). -/
def TARGET_CHAR_COUNT : Nat := 2950

/-- `Orchestrator.MAX_CHAR_LOOP_ITERATIONS` (orchestrator.py line 63). -/
def MAX_CHAR_LOOP_ITERATIONS : Nat := 5

/-- `Orchestrator.MAX_TOPIC_PIVOTS` (orchestrator.py line 64). -/
def MAX_TOPIC_PIVOTS : Nat := 2

/-- `count_chars` (persistence.py lines 155-172): `len(text)`. -/
def count_chars (text : String) : Nat := text.length

/-- The shortening instruction built when the reviewed draft is over the
limit (orchestrator.py, `_execute_writing_and_review_loop`): measured
`current_count` and the fixed `target_count` (the message string derived from
them is omitted). -/
structure ShorteningInstruction where
  current_count : Nat
  target_count : Nat
  deriving Repr, DecidableEq

/-- Outcome of the writing-and-review loop: the final post, or the
`ValidationError` raised when the iteration bound is exhausted. -/
inductive CharLoopOutcome where
  | finalPost (text : String)
  | validationError (msg : String)
  deriving Repr, DecidableEq

/-- Observable trace of `_execute_writing_and_review_loop`: outcome, number
of writer-agent invocations, and the final `char_loop_iterations` metric. -/
structure CharLoopResult where
  outcome : CharLoopOutcome
  writerInvocations : Nat
  iterations : Nat
  deriving Repr, DecidableEq

/-- The `while iteration < MAX_CHAR_LOOP_ITERATIONS` loop of
`_execute_writing_and_review_loop` (orchestrator.py lines 300-375).
`review i instr` is the reviewer's revised text at iteration `i` (1-indexed)
when the writer was invoked with shortening instruction `instr` (`none` on
the first iteration).  `fuel` is `MAX_CHAR_LOOP_ITERATIONS - iteration`;
`fuel = 0` is loop exit, which raises `ValidationError`. -/
def charLoopGo (review : Nat → Option ShorteningInstruction → String) :
    Nat → Nat → Option ShorteningInstruction → Nat → CharLoopResult
  | 0, iteration, _, invs =>
      { outcome := .validationError
          "Character count loop exceeded 5 iterations",
        writerInvocations := invs, iterations := iteration }
  | fuel + 1, iteration, instr, invs =>
      let revised := review (iteration + 1) instr
      let char_count := count_chars revised
      if char_count < MAX_CHAR_COUNT then
        { outcome := .finalPost revised, writerInvocations := invs + 1,
          iterations := iteration + 1 }
      else
        charLoopGo review fuel (iteration + 1)
          (some { current_count := char_count,
                  target_count := TARGET_CHAR_COUNT }) (invs + 1)

/-- `Orchestrator._execute_writing_and_review_loop`. -/
def execute_writing_and_review_loop
    (review : Nat → Option ShorteningInstruction → String) : CharLoopResult :=
  charLoopGo review MAX_CHAR_LOOP_ITERATIONS 0 none 0

/-- Outcome of `_execute_research_with_pivot`: research data, or a raised
`DataNotFoundError` with its message. -/
structure PivotResult (D : Type) where
  outcome : Except String D
  researchAttempts : Nat
  topicRequests : Nat
  pivots : Nat
  deriving Repr

/-- The `while pivot_count <= MAX_TOPIC_PIVOTS` loop of
`_execute_research_with_pivot` (orchestrator.py lines 249-286).
`research n t` is the result of the `n`-th research-agent invocation
(0-indexed) on topic `t` (`none` models `DataNotFoundError`); `newTopic p`
is the replacement topic obtained from the topic agent at pivot number `p`.
`fuel` is `MAX_TOPIC_PIVOTS + 1 - pivot_count`; `fuel = 0` is the
loop-guard-false exit (the defensive final raise, unreachable here). -/
def pivotGo {D : Type} (research : Nat → String → Option D)
    (newTopic : Nat → String) :
    Nat → String → Nat → Nat → Nat → PivotResult D
  | 0, _, pivot_count, attempts, treqs =>
      { outcome := .error "Topic pivot logic exhausted unexpectedly",
        researchAttempts := attempts, topicRequests := treqs,
        pivots := pivot_count }
  | fuel + 1, topic, pivot_count, attempts, treqs =>
      match research attempts topic with
      | some d =>
          { outcome := .ok d, researchAttempts := attempts + 1,
            topicRequests := treqs, pivots := pivot_count }
      | none =>
          let pivot_count' := pivot_count + 1
          if MAX_TOPIC_PIVOTS < pivot_count' then
            { outcome := .error "Research failed after 2 topic pivots",
              researchAttempts := attempts + 1, topicRequests := treqs,
              pivots := pivot_count' }
          else
            pivotGo research newTopic fuel (newTopic pivot_count') pivot_count'
              (attempts + 1) (treqs + 1)

/-- `Orchestrator._execute_research_with_pivot`. -/
def execute_research_with_pivot {D : Type} (research : Nat → String → Option D)
    (newTopic : Nat → String) (initial_topic : String) : PivotResult D :=
  pivotGo research newTopic (MAX_TOPIC_PIVOTS + 1) initial_topic 0 0 0

/-- A reviewer whose revised output is always exactly 3000 characters — at
the `MAX_CHAR_COUNT` threshold on every iteration. -/
def alwaysOverReview : Nat → Option ShorteningInstruction → String :=
  fun _ _ => String.mk (List.replicate 3000 'a')

lemma alwaysOverReview_over (i : Nat) (instr : Option ShorteningInstruction) :
    MAX_CHAR_COUNT ≤ count_chars (alwaysOverReview i instr) := by
  show MAX_CHAR_COUNT ≤ (List.replicate 3000 'a').length
  rw [List.length_replicate, MAX_CHAR_COUNT]

lemma charLoopGo_over_step (review : Nat → Option ShorteningInstruction → String)
    (fuel iteration invs : Nat) (instr : Option ShorteningInstruction)
    (hover : MAX_CHAR_COUNT ≤ count_chars (review (iteration + 1) instr)) :
    charLoopGo review (fuel + 1) iteration instr invs =
      charLoopGo review fuel (iteration + 1)
        (some { current_count := count_chars (review (iteration + 1) instr),
                target_count := TARGET_CHAR_COUNT }) (invs + 1) := by
  simp [charLoopGo, Nat.not_lt.2 hover]

lemma charLoopGo_always_over
    (review : Nat → Option ShorteningInstruction → String)
    (hover : ∀ i instr, MAX_CHAR_COUNT ≤ count_chars (review i instr)) :
    ∀ (fuel iteration invs : Nat) (instr : Option ShorteningInstruction),
      charLoopGo review fuel iteration instr invs =
        { outcome := .validationError
            "Character count loop exceeded 5 iterations",
          writerInvocations := invs + fuel, iterations := iteration + fuel } := by
  intro fuel
  induction fuel with
  | zero => intro iteration invs instr; simp [charLoopGo]
  | succ k ih =>
      intro iteration invs instr
      rw [charLoopGo_over_step review k iteration invs instr (hover _ _)]
      rw [ih (iteration + 1) (invs + 1)]
      have h1 : invs + 1 + k = invs + (k + 1) := by omega
      have h2 : iteration + 1 + k = iteration + (k + 1) := by omega
      rw [h1, h2]

/-- C1 counterexample: with every reviewed output at the 3000-character
threshold, the writing-and-review loop performs 5 writer invocations — so a
4th writer invocation does occur and the loop is not bounded at 3
iterations (the code's `MAX_CHAR_LOOP_ITERATIONS` is 5, not 3). -/
theorem claim_C1_counterexample :
    (execute_writing_and_review_loop alwaysOverReview).writerInvocations = 5
    ∧ ¬ (execute_writing_and_review_loop
        alwaysOverReview).writerInvocations ≤ 3 := by
  rw [execute_writing_and_review_loop,
    show MAX_CHAR_LOOP_ITERATIONS = 5 from rfl,
    charLoopGo_always_over alwaysOverReview alwaysOverReview_over 5 0 0 none]
  exact ⟨rfl, by decide⟩

/-- C1 amended: the quality-shortening loop performs at most
`MAX_CHAR_LOOP_ITERATIONS = 5` iterations (not 3): whenever every iteration's
reviewed output is at or over the 3000-character threshold, the loop
re-invokes the writer with a shorten-to-`TARGET_CHAR_COUNT` instruction
derived from each over-threshold measurement, and after the 5th iteration it
aborts with `ValidationError`, issuing no 6th writer invocation. -/
theorem claim_C1_amended (review : Nat → Option ShorteningInstruction → String)
    (hover : ∀ i instr, MAX_CHAR_COUNT ≤ count_chars (review i instr)) :
    ((execute_writing_and_review_loop review).outcome =
        .validationError "Character count loop exceeded 5 iterations")
    ∧ (execute_writing_and_review_loop review).writerInvocations =
        MAX_CHAR_LOOP_ITERATIONS
    ∧ (execute_writing_and_review_loop review).iterations =
        MAX_CHAR_LOOP_ITERATIONS
    ∧ ∀ (fuel iteration invs : Nat) (instr : Option ShorteningInstruction),
        charLoopGo review (fuel + 1) iteration instr invs =
          charLoopGo review fuel (iteration + 1)
            (some { current_count := count_chars (review (iteration + 1) instr),
                    target_count := TARGET_CHAR_COUNT }) (invs + 1) := by
  have h := charLoopGo_always_over review hover
  refine ⟨?_, ?_, ?_, ?_⟩
  · rw [execute_writing_and_review_loop, h]
  · rw [execute_writing_and_review_loop, h]; simp
  · rw [execute_writing_and_review_loop, h]; simp
  · intro fuel iteration invs instr
    exact charLoopGo_over_step review fuel iteration invs instr (hover _ _)

/-- Witness for the amended C1 at the concrete always-3000-character
reviewer. -/
theorem claim_C1_amended_witness :
    MAX_CHAR_COUNT ≤ count_chars (alwaysOverReview 1 none)
    ∧ (execute_writing_and_review_loop alwaysOverReview).outcome =
        .validationError "Character count loop exceeded 5 iterations"
    ∧ (execute_writing_and_review_loop alwaysOverReview).writerInvocations =
        MAX_CHAR_LOOP_ITERATIONS := by
  exact ⟨alwaysOverReview_over 1 none,
    (claim_C1_amended alwaysOverReview alwaysOverReview_over).1,
    (claim_C1_amended alwaysOverReview alwaysOverReview_over).2.1⟩

/-- C9: a research step that raises `DataNotFoundError` on every invocation
is executed exactly 3 times by the topic-substitution loop (the initial
attempt plus `MAX_TOPIC_PIVOTS = 2` substitutions), a replacement topic is
requested before each of the 2 re-runs, and the loop then raises
`DataNotFoundError` — there is no 4th research attempt. -/
theorem claim_C9_substitution_bound {D : Type}
    (research : Nat → String → Option D) (newTopic : Nat → String)
    (initial_topic : String) (hfail : ∀ n t, research n t = none) :
    execute_research_with_pivot research newTopic initial_topic =
      { outcome := .error "Research failed after 2 topic pivots",
        researchAttempts := 3, topicRequests := 2, pivots := 3 } := by
  simp [execute_research_with_pivot, pivotGo, hfail, MAX_TOPIC_PIVOTS]

/-- Witness for C9 at a concrete always-failing research step. -/
theorem claim_C9_substitution_bound_witness :
    execute_research_with_pivot (D := Nat) (fun _ _ => none) (fun _ => "t")
        "t0" =
      { outcome := .error "Research failed after 2 topic pivots",
        researchAttempts := 3, topicRequests := 2, pivots := 3 } :=
  claim_C9_substitution_bound (fun _ _ => none) (fun _ => "t") "t0"
    (fun _ _ => rfl)

/-! ## Cost ledger (`src/core/cost_tracking.py`) -/

/-- Gemini pricing constants (cost_tracking.py lines 27-30), as exact
rationals: dollars per 1M tokens / per image. -/
def GEMINI_PRO_INPUT_PRICE : ℚ := 125 / 100000

def GEMINI_PRO_OUTPUT_PRICE : ℚ := 1 / 100

def GEMINI_FLASH_IMAGE_PRICE : ℚ := 3 / 10000

/-- Python's `sub in s` on strings (used by `CostMetrics.__post_init__` for
model-name matching). -/
def strContains (s sub : String) : Bool := occursIn sub.data s.data

/-- Token usage and cost for one call (`CostMetrics` dataclass).  `make`
performs the `__post_init__` cost computation: a flat per-image price when
the lower-cased model name contains "image", otherwise the token-linear
Gemini Pro pricing (the explicit gemini-pro branch and the unknown-model
default compute the same formula). -/
structure CostMetrics where
  model : String
  input_tokens : Nat
  output_tokens : Nat
  cost_usd : ℚ
  deriving Repr, DecidableEq

def CostMetrics.make (model : String) (input_tokens output_tokens : Nat) :
    CostMetrics :=
  let cost : ℚ :=
    if strContains (pyLower model) "image" then
      GEMINI_FLASH_IMAGE_PRICE
    else if strContains (pyLower model) "gemini"
        && strContains (pyLower model) "pro" then
      (input_tokens : ℚ) / 1000000 * GEMINI_PRO_INPUT_PRICE
        + (output_tokens : ℚ) / 1000000 * GEMINI_PRO_OUTPUT_PRICE
    else
      (input_tokens : ℚ) / 1000000 * GEMINI_PRO_INPUT_PRICE
        + (output_tokens : ℚ) / 1000000 * GEMINI_PRO_OUTPUT_PRICE
  { model := model, input_tokens := input_tokens,
    output_tokens := output_tokens, cost_usd := cost }

/-- The lightweight preview stored by `check_budget` (the
`_last_budget_preview` attribute). -/
structure BudgetPreview where
  model : String
  input_tokens : Nat
  estimated_output_tokens : Nat
  projected_cost_usd : ℚ
  deriving Repr, DecidableEq

/-- `CostTracker` dataclass state.  The per-agent dicts are modelled as
total maps with default value 0 (`dict.get(agent, 0)` semantics). -/
structure CostTracker where
  max_cost_usd : ℚ
  max_api_calls : Nat
  total_cost_usd : ℚ
  api_call_count : Nat
  costs_by_agent : String → ℚ
  calls_by_agent : String → Nat
  last_budget_preview : Option BudgetPreview

/-- `CostTracker()` with its dataclass defaults: $3.00 budget, 25 calls. -/
def CostTracker.init : CostTracker :=
  { max_cost_usd := 3, max_api_calls := 25, total_cost_usd := 0,
    api_call_count := 0, costs_by_agent := fun _ => 0,
    calls_by_agent := fun _ => 0, last_budget_preview := none }

/-- The two `ValidationError`s the ledger can raise (their message text,
which interpolates float formatting, is not modelled). -/
inductive BudgetViolation where
  | maxCallsExceeded
  | maxCostExceeded
  deriving Repr, DecidableEq

/-- The input-token count `check_budget` uses without a token-counting
client: `max(1, len(prompt) // 4)`. -/
def heuristicInputTokens (prompt : String) : Nat :=
  max 1 (prompt.length / 4)

/-- `CostTracker.check_budget(model, prompt, estimated_output_tokens)`
(cost_tracking.py lines 76-129): raises when the call count is already at
the limit, or when the projected total cost strictly exceeds `max_cost_usd`;
otherwise stores the preview and returns.  (Token counting uses the
no-client heuristic path.) -/
def CostTracker.check_budget (t : CostTracker) (model prompt : String)
    (estimated_output_tokens : Nat) : Except BudgetViolation CostTracker :=
  if t.max_api_calls ≤ t.api_call_count then
    .error .maxCallsExceeded
  else
    let input_tokens := heuristicInputTokens prompt
    let projected_cost_metrics :=
      CostMetrics.make model input_tokens estimated_output_tokens
    let projected_total := t.total_cost_usd + projected_cost_metrics.cost_usd
    if t.max_cost_usd < projected_total then
      .error .maxCostExceeded
    else
      let preview : BudgetPreview :=
        { model := model, input_tokens := input_tokens,
          estimated_output_tokens := estimated_output_tokens,
          projected_cost_usd := projected_cost_metrics.cost_usd }
      .ok { t with last_budget_preview := some preview }

/-- The tracker state after a `check_budget` call: the returned state on
normal return, the unchanged state when the call raised (the raise happens
before any assignment). -/
def CostTracker.afterCheck (t : CostTracker) (model prompt : String)
    (estimated_output_tokens : Nat) : CostTracker :=
  match t.check_budget model prompt estimated_output_tokens with
  | .ok t' => t'
  | .error _ => t

/-- `N` consecutive `check_budget` calls with the same arguments. -/
def CostTracker.checkN (t : CostTracker) (model prompt : String)
    (estimated_output_tokens : Nat) : Nat → CostTracker
  | 0 => t
  | n + 1 =>
      (t.afterCheck model prompt estimated_output_tokens).checkN model prompt
        estimated_output_tokens n

/-- Python truthiness of the optional `agent` argument of `record_call`
(`if agent:`): `None` and the empty string are falsy. -/
def agentTruthy : Option String → Bool
  | none => false
  | some a => !(a == "")

/-- `CostTracker.record_call` (cost_tracking.py lines 131-198), after the
two calling patterns have been normalised to an agent name and a
`CostMetrics` (the new pattern builds the metrics via `CostMetrics.make`):
re-checks the call-count limit and the cost limit, raising without any state
change when either would be violated, and only then commits the new total,
the incremented call count, and the per-agent entries (when `agent` is
truthy). -/
def CostTracker.record_call (t : CostTracker) (agent : Option String)
    (metrics : CostMetrics) : Except BudgetViolation CostTracker :=
  if t.max_api_calls ≤ t.api_call_count then
    .error .maxCallsExceeded
  else
    let new_total_cost := t.total_cost_usd + metrics.cost_usd
    if t.max_cost_usd < new_total_cost then
      .error .maxCostExceeded
    else
      let t' := { t with total_cost_usd := new_total_cost,
                         api_call_count := t.api_call_count + 1 }
      .ok (match agent with
        | some a =>
            if a == "" then t'
            else
              { t' with
                costs_by_agent :=
                  Function.update t'.costs_by_agent a
                    (t'.costs_by_agent a + metrics.cost_usd),
                calls_by_agent :=
                  Function.update t'.calls_by_agent a
                    (t'.calls_by_agent a + 1) }
        | none => t')

/-- The tracker state after a `record_call` call (unchanged when it
raised). -/
def CostTracker.afterRecord (t : CostTracker) (agent : Option String)
    (metrics : CostMetrics) : CostTracker :=
  match t.record_call agent metrics with
  | .ok t' => t'
  | .error _ => t

/-- Whether an `Except`-modelled call raised. -/
def raisesError {ε α : Type} : Except ε α → Bool
  | .error _ => true
  | .ok _ => false

lemma afterCheck_fields (t : CostTracker) (model prompt : String) (est : Nat) :
    (t.afterCheck model prompt est).max_cost_usd = t.max_cost_usd
    ∧ (t.afterCheck model prompt est).max_api_calls = t.max_api_calls
    ∧ (t.afterCheck model prompt est).total_cost_usd = t.total_cost_usd
    ∧ (t.afterCheck model prompt est).api_call_count = t.api_call_count
    ∧ (t.afterCheck model prompt est).costs_by_agent = t.costs_by_agent
    ∧ (t.afterCheck model prompt est).calls_by_agent = t.calls_by_agent := by
  unfold CostTracker.afterCheck CostTracker.check_budget
  by_cases h1 : t.max_api_calls ≤ t.api_call_count <;>
    by_cases h2 : t.max_cost_usd < t.total_cost_usd +
      (CostMetrics.make model (heuristicInputTokens prompt) est).cost_usd <;>
    simp [h1, h2]

lemma check_budget_raises_iff (t : CostTracker) (model prompt : String)
    (est : Nat) :
    raisesError (t.check_budget model prompt est) = true ↔
      t.max_api_calls ≤ t.api_call_count ∨
        t.max_cost_usd < t.total_cost_usd +
          (CostMetrics.make model (heuristicInputTokens prompt) est).cost_usd := by
  unfold CostTracker.check_budget
  by_cases h1 : t.max_api_calls ≤ t.api_call_count <;>
    by_cases h2 : t.max_cost_usd < t.total_cost_usd +
      (CostMetrics.make model (heuristicInputTokens prompt) est).cost_usd <;>
    simp [h1, h2, raisesError]

/-- C5: `check_budget` raises `ValidationError` exactly when (a) the call
count has reached `max_api_calls` or (b) the running total plus the projected
cost of the upcoming call strictly exceeds `max_cost_usd`; whether it raises
or returns, `total_cost_usd`, `api_call_count` and the per-agent maps are
unchanged, so any number `n` of `check_budget` calls without `record_call`
never changes `total_cost_usd`. -/
theorem claim_C5_check_budget_frame (t : CostTracker) (model prompt : String)
    (est n : Nat) :
    (raisesError (t.check_budget model prompt est) = true ↔
      t.max_api_calls ≤ t.api_call_count ∨
        t.max_cost_usd < t.total_cost_usd +
          (CostMetrics.make model (heuristicInputTokens prompt) est).cost_usd)
    ∧ (t.afterCheck model prompt est).total_cost_usd = t.total_cost_usd
    ∧ (t.afterCheck model prompt est).api_call_count = t.api_call_count
    ∧ (t.afterCheck model prompt est).costs_by_agent = t.costs_by_agent
    ∧ (t.afterCheck model prompt est).calls_by_agent = t.calls_by_agent
    ∧ (t.checkN model prompt est n).total_cost_usd = t.total_cost_usd := by
  have hN : ∀ (k : Nat) (s : CostTracker),
      (s.checkN model prompt est k).total_cost_usd = s.total_cost_usd := by
    intro k
    induction k with
    | zero => intro s; rfl
    | succ m ih =>
        intro s
        have hs := afterCheck_fields s model prompt est
        calc (s.checkN model prompt est (m + 1)).total_cost_usd
            = ((s.afterCheck model prompt est).checkN model prompt
                est m).total_cost_usd := rfl
          _ = (s.afterCheck model prompt est).total_cost_usd := ih _
          _ = s.total_cost_usd := hs.2.2.1
  have hf := afterCheck_fields t model prompt est
  exact ⟨check_budget_raises_iff t model prompt est, hf.2.2.1, hf.2.2.2.1,
    hf.2.2.2.2.1, hf.2.2.2.2.2, hN n t⟩

lemma record_call_raises_iff (t : CostTracker) (agent : Option String)
    (metrics : CostMetrics) :
    raisesError (t.record_call agent metrics) = true ↔
      t.max_api_calls ≤ t.api_call_count ∨
        t.max_cost_usd < t.total_cost_usd + metrics.cost_usd := by
  unfold CostTracker.record_call
  by_cases h1 : t.max_api_calls ≤ t.api_call_count <;>
    by_cases h2 : t.max_cost_usd < t.total_cost_usd + metrics.cost_usd <;>
    simp [h1, h2, raisesError]

/-- C6: `record_call` re-validates the same two limits as `check_budget`
before committing — it raises `ValidationError` exactly when the call count
is at `max_api_calls` or the new total would strictly exceed `max_cost_usd`,
leaving the ledger unchanged in that case; otherwise it increments
`api_call_count` by 1, adds the cost to `total_cost_usd`, and adds to the
agent's per-agent cost and call entries; recording the same call twice from a
fresh ledger (budget permitting) doubles `total_cost_usd` and
`api_call_count`. -/
theorem claim_C6_record_call (t : CostTracker) (agent : Option String)
    (metrics : CostMetrics)
    (hc1 : metrics.cost_usd ≤ CostTracker.init.max_cost_usd)
    (hc2 : metrics.cost_usd + metrics.cost_usd ≤ CostTracker.init.max_cost_usd) :
    (raisesError (t.record_call agent metrics) = true ↔
      t.max_api_calls ≤ t.api_call_count ∨
        t.max_cost_usd < t.total_cost_usd + metrics.cost_usd)
    ∧ (raisesError (t.record_call agent metrics) = true →
        t.afterRecord agent metrics = t)
    ∧ (∀ t', t.record_call agent metrics = .ok t' →
        t'.total_cost_usd = t.total_cost_usd + metrics.cost_usd
        ∧ t'.api_call_count = t.api_call_count + 1
        ∧ ∀ nm, agent = some nm → nm ≠ "" →
            t'.costs_by_agent nm = t.costs_by_agent nm + metrics.cost_usd
            ∧ t'.calls_by_agent nm = t.calls_by_agent nm + 1)
    ∧ ((CostTracker.init.afterRecord agent metrics).afterRecord agent
          metrics).total_cost_usd = metrics.cost_usd + metrics.cost_usd
    ∧ ((CostTracker.init.afterRecord agent metrics).afterRecord agent
          metrics).api_call_count = 2 := by
  have hok : ∀ (s : CostTracker),
      ¬ s.max_api_calls ≤ s.api_call_count →
      ¬ s.max_cost_usd < s.total_cost_usd + metrics.cost_usd →
      ∃ t', s.record_call agent metrics = .ok t'
        ∧ t'.total_cost_usd = s.total_cost_usd + metrics.cost_usd
        ∧ t'.api_call_count = s.api_call_count + 1
        ∧ t'.max_cost_usd = s.max_cost_usd
        ∧ t'.max_api_calls = s.max_api_calls
        ∧ ∀ nm, agent = some nm → nm ≠ "" →
            t'.costs_by_agent nm = s.costs_by_agent nm + metrics.cost_usd
            ∧ t'.calls_by_agent nm = s.calls_by_agent nm + 1 := by
    intro s h1 h2
    unfold CostTracker.record_call
    rw [if_neg h1, if_neg h2]
    match agent with
    | none =>
        refine ⟨_, rfl, rfl, rfl, rfl, rfl, ?_⟩
        intro nm hnm
        exact absurd hnm (by simp)
    | some a =>
        refine ⟨_, rfl, ?_, ?_, ?_, ?_, ?_⟩
        · by_cases ha : a = "" <;> simp [ha]
        · by_cases ha : a = "" <;> simp [ha]
        · by_cases ha : a = "" <;> simp [ha]
        · by_cases ha : a = "" <;> simp [ha]
        · intro nm hnm hne
          rw [Option.some.injEq] at hnm
          subst hnm
          simp [hne, Function.update_same]
  refine ⟨record_call_raises_iff t agent metrics, ?_, ?_, ?_⟩
  · intro hr
    unfold CostTracker.afterRecord
    rcases hcase : t.record_call agent metrics with err | t'
    · rfl
    · rw [hcase] at hr
      simp [raisesError] at hr
  · intro t' ht'
    by_cases h1 : t.max_api_calls ≤ t.api_call_count
    · unfold CostTracker.record_call at ht'
      rw [if_pos h1] at ht'
      exact absurd ht' (by simp)
    · by_cases h2 : t.max_cost_usd < t.total_cost_usd + metrics.cost_usd
      · unfold CostTracker.record_call at ht'
        rw [if_neg h1, if_pos h2] at ht'
        exact absurd ht' (by simp)
      · obtain ⟨t'', heq, hrest⟩ := hok t h1 h2
        rw [ht'] at heq
        rw [Except.ok.injEq] at heq
        subst heq
        exact ⟨hrest.1, hrest.2.1, hrest.2.2.2.2⟩
  · have h1a : ¬ CostTracker.init.max_api_calls ≤
        CostTracker.init.api_call_count := by
      simp [CostTracker.init]
    have h2a : ¬ CostTracker.init.max_cost_usd <
        CostTracker.init.total_cost_usd + metrics.cost_usd := by
      simp only [CostTracker.init, not_lt]
      simpa using hc1
    obtain ⟨t1, heq1, htot1, hcnt1, hmax1, hcalls1, _⟩ :=
      hok CostTracker.init h1a h2a
    have hstep1 : CostTracker.init.afterRecord agent metrics = t1 := by
      unfold CostTracker.afterRecord
      rw [heq1]
    have h1b : ¬ t1.max_api_calls ≤ t1.api_call_count := by
      rw [hcalls1, hcnt1]
      simp [CostTracker.init]
    have h2b : ¬ t1.max_cost_usd < t1.total_cost_usd + metrics.cost_usd := by
      rw [hmax1, htot1]
      simp only [CostTracker.init, not_lt]
      simpa [add_assoc] using hc2
    obtain ⟨t2, heq2, htot2, hcnt2, _, _, _⟩ := hok t1 h1b h2b
    have hstep2 : t1.afterRecord agent metrics = t2 := by
      unfold CostTracker.afterRecord
      rw [heq2]
    rw [hstep1, hstep2, htot2, hcnt2, htot1, hcnt1]
    simp [CostTracker.init, add_assoc]

/-- Witness for C6 at a concrete text call (gemini-2.5-pro, 1000 input and
500 output tokens, recorded for the writer agent, from the default $3.00 /
25-call ledger). -/
theorem claim_C6_record_call_witness :
    ((CostMetrics.make "gemini-2.5-pro" 1000 500).cost_usd ≤
        CostTracker.init.max_cost_usd
      ∧ (CostMetrics.make "gemini-2.5-pro" 1000 500).cost_usd +
          (CostMetrics.make "gemini-2.5-pro" 1000 500).cost_usd ≤
        CostTracker.init.max_cost_usd)
    ∧ (((CostTracker.init.afterRecord (some "writer_agent")
            (CostMetrics.make "gemini-2.5-pro" 1000 500)).afterRecord
          (some "writer_agent")
          (CostMetrics.make "gemini-2.5-pro" 1000 500)).total_cost_usd =
        (CostMetrics.make "gemini-2.5-pro" 1000 500).cost_usd +
          (CostMetrics.make "gemini-2.5-pro" 1000 500).cost_usd
      ∧ ((CostTracker.init.afterRecord (some "writer_agent")
            (CostMetrics.make "gemini-2.5-pro" 1000 500)).afterRecord
          (some "writer_agent")
          (CostMetrics.make "gemini-2.5-pro" 1000 500)).api_call_count = 2) := by
  have hmodel : strContains (pyLower "gemini-2.5-pro") "image" = false := by
    decide
  have hcost : (CostMetrics.make "gemini-2.5-pro" 1000 500).cost_usd =
      (1000 : ℚ) / 1000000 * GEMINI_PRO_INPUT_PRICE
        + (500 : ℚ) / 1000000 * GEMINI_PRO_OUTPUT_PRICE := by
    rw [CostMetrics.make]
    simp only [hmodel, Bool.false_eq_true, if_false]
    split <;> norm_num
  have hc1 : (CostMetrics.make "gemini-2.5-pro" 1000 500).cost_usd ≤
      CostTracker.init.max_cost_usd := by
    rw [hcost]
    norm_num [CostTracker.init, GEMINI_PRO_INPUT_PRICE,
      GEMINI_PRO_OUTPUT_PRICE]
  have hc2 : (CostMetrics.make "gemini-2.5-pro" 1000 500).cost_usd +
      (CostMetrics.make "gemini-2.5-pro" 1000 500).cost_usd ≤
      CostTracker.init.max_cost_usd := by
    rw [hcost]
    norm_num [CostTracker.init, GEMINI_PRO_INPUT_PRICE,
      GEMINI_PRO_OUTPUT_PRICE]
  have h := claim_C6_record_call CostTracker.init (some "writer_agent")
    (CostMetrics.make "gemini-2.5-pro" 1000 500) hc1 hc2
  exact ⟨⟨hc1, hc2⟩, h.2.2.2⟩

/-! ## Atomic artifact store (`src/core/persistence.py`) -/

/-- Contents of a file as the JSON machinery observes them: parses as JSON
(holding the parsed value), present but malformed (`json.JSONDecodeError`
on load), or present but unreadable (`OSError` on open/read).  JSON
serialization/parsing itself is the Python standard library — external to
this repository — so it is modelled by this roundtrip-exact content type. -/
inductive FileContent (V : Type) where
  | jsonContent (v : V)
  | badContent (raw : String)
  | unreadableContent
  deriving Repr, DecidableEq

/-- A file system: a map from path strings to optional file contents. -/
def FS (V : Type) : Type := String → Option (FileContent V)

/-- Point update of the file-system map (`none` removes the file). -/
def updateFS {V : Type} (fs : FS V) (p : String)
    (c : Option (FileContent V)) : FS V :=
  fun q => if q = p then c else fs q

/-- The temporary file created by `tempfile.mkstemp(dir=path.parent,
prefix=f".{path.name}.", suffix=".tmp")`, modelled deterministically as a
distinct sibling name. -/
def tempName (path : String) : String := "." ++ path ++ ".tmp"

/-- `atomic_write_json(path, obj)` (persistence.py lines 16-57), with an
injectable exception: create the temp file, serialize into it, flush/fsync,
then `os.replace` it over the destination; when `exn` injects an exception
anywhere before the rename, the temp file is unlinked and the exception is
re-raised (`false` in the second component), leaving the destination
untouched. -/
def atomic_write_json {V : Type} (fs : FS V) (path : String) (obj : V)
    (exn : Bool) : FS V × Bool :=
  let tmp := tempName path
  let fs1 := updateFS fs tmp (some (.badContent ""))
  if exn then
    (updateFS fs1 tmp none, false)
  else
    let fs2 := updateFS fs1 tmp (some (.jsonContent obj))
    (updateFS (updateFS fs2 path (some (.jsonContent obj))) tmp none, true)

/-- The three `CorruptionError` causes distinguished by `verify_json`
(persistence.py lines 60-91): file not found, JSON decode failure, and
unreadable file. -/
inductive CorruptionKind where
  | fileNotFound
  | jsonDecode
  | cannotRead
  deriving Repr, DecidableEq

/-- `verify_json(path)`: re-open and parse the file, raising
`CorruptionError` on a missing, malformed or unreadable file, and returning
the parsed object otherwise. -/
def verify_json {V : Type} (fs : FS V) (path : String) :
    Except CorruptionKind V :=
  match fs path with
  | none => .error .fileNotFound
  | some (.badContent _) => .error .jsonDecode
  | some .unreadableContent => .error .cannotRead
  | some (.jsonContent v) => .ok v

/-- Outcome of `write_and_verify_json`: the write's own exception
re-raised, a `CorruptionError` from verification, or the verified parsed
object. -/
inductive WriteVerifyOutcome (V : Type) where
  | writeRaised
  | corruption (k : CorruptionKind)
  | verified (v : V)
  deriving Repr, DecidableEq

/-- `write_and_verify_json(path, obj)` (persistence.py lines 98-152):
`atomic_write_json` then `verify_json`. -/
def write_and_verify_json {V : Type} (fs : FS V) (path : String) (obj : V)
    (exn : Bool) : FS V × WriteVerifyOutcome V :=
  let r := atomic_write_json fs path obj exn
  if r.2 then
    match verify_json r.1 path with
    | .ok v => (r.1, .verified v)
    | .error k => (r.1, .corruption k)
  else
    (r.1, .writeRaised)

lemma tempName_ne (path : String) : tempName path ≠ path := by
  intro h
  have hl := congrArg String.length h
  rw [tempName, String.length_append, String.length_append] at hl
  have h1 : ".".length = 1 := rfl
  have h4 : ".tmp".length = 4 := rfl
  rw [h1, h4] at hl
  omega

/-- C7: `atomic_write_json` writes through a temporary sibling file renamed
over the destination.  On an injected exception before the rename, the
exception propagates (`false`), the temporary file is removed and the
destination's prior content is unchanged; on success the destination holds
exactly the written object and the temporary file is gone; unrelated paths
are never touched.  `write_and_verify_json` then re-reads the file:
`verify_json` returns the parsed object exactly when the file is present
and parses, raising `CorruptionError` when it is missing, malformed, or
unreadable, so a successful `write_and_verify_json` returns the written
object. -/
theorem claim_C7_atomic_write_and_verify {V : Type} (fs : FS V)
    (path q : String) (obj : V) (v : V) :
    ((atomic_write_json fs path obj true).2 = false
      ∧ (atomic_write_json fs path obj true).1 path = fs path
      ∧ (atomic_write_json fs path obj true).1 (tempName path) = none)
    ∧ ((atomic_write_json fs path obj false).2 = true
      ∧ (atomic_write_json fs path obj false).1 path =
          some (.jsonContent obj)
      ∧ (atomic_write_json fs path obj false).1 (tempName path) = none)
    ∧ (q ≠ path → q ≠ tempName path →
        (atomic_write_json fs path obj true).1 q = fs q
        ∧ (atomic_write_json fs path obj false).1 q = fs q)
    ∧ (verify_json fs path = .ok v ↔ fs path = some (.jsonContent v))
    ∧ (raisesError (verify_json fs path) = true ↔
        (fs path = none ∨ (∃ raw, fs path = some (.badContent raw))
          ∨ fs path = some .unreadableContent))
    ∧ (write_and_verify_json fs path obj false).2 = .verified obj
    ∧ (write_and_verify_json fs path obj true).2 = .writeRaised := by
  have hne := tempName_ne path
  have hne' : path ≠ tempName path := fun h => hne h.symm
  refine ⟨⟨rfl, ?_, ?_⟩, ⟨rfl, ?_, ?_⟩, ?_, ?_, ?_, ?_, rfl⟩
  · simp [atomic_write_json, updateFS, hne']
  · simp [atomic_write_json, updateFS]
  · simp [atomic_write_json, updateFS, hne']
  · simp [atomic_write_json, updateFS]
  · intro hq1 hq2
    constructor <;> simp [atomic_write_json, updateFS, hq1, hq2]
  · unfold verify_json
    rcases hfp : fs path with _ | c
    · simp
    · rcases c with w | raw | _ <;> simp
  · unfold verify_json
    rcases hfp : fs path with _ | c
    · simp [raisesError]
    · rcases c with w | raw | _ <;> simp [raisesError]
  · simp [write_and_verify_json, atomic_write_json, verify_json, updateFS,
      hne']

/-- Witness for C7 at a concrete empty file system and artifact path. -/
theorem claim_C7_atomic_write_and_verify_witness :
    (atomic_write_json (V := Nat) (fun _ => none) "40_draft.json" 7 true).1
        "40_draft.json" = none
    ∧ (atomic_write_json (V := Nat) (fun _ => none) "40_draft.json" 7
        false).1 "40_draft.json" = some (.jsonContent 7)
    ∧ (write_and_verify_json (V := Nat) (fun _ => none) "40_draft.json" 7
        false).2 = .verified 7 := by
  have h := claim_C7_atomic_write_and_verify (V := Nat) (fun _ => none)
    "40_draft.json" "other" 7 7
  exact ⟨h.1.2.1, h.2.1.2.1, h.2.2.2.2.2.1⟩

/-! ## Fallback approval gate (`src/core/fallback_tracker.py`) -/

/-- A `FallbackWarning` (fallback_tracker.py lines 13-48): the recorded
fields plus the `user_approved` flag, initially `false`.  (The wall-clock
timestamp is not modelled.) -/
structure FallbackWarning where
  agent_name : String
  reason : String
  error_message : String
  step_number : Nat
  original_objective : String
  user_approved : Bool
  deriving Repr, DecidableEq

/-- `FallbackTracker` state: the in-memory `warnings` list and the
append-only `fallback_warnings.jsonl` audit file, as the ordered list of
records written to it (`_persist_warning` appends one line per call). -/
structure FallbackTracker where
  warnings : List FallbackWarning
  audit : List FallbackWarning
  deriving Repr, DecidableEq

/-- `FallbackTracker.record_warning` (fallback_tracker.py lines 69-99):
build the warning with `user_approved = False`, append it to the in-memory
list, persist it (append one line to the audit file), and return it. -/
def FallbackTracker.record_warning (st : FallbackTracker)
    (agent_name reason error_message : String) (step_number : Nat)
    (original_objective : String) : FallbackTracker × FallbackWarning :=
  let warning : FallbackWarning :=
    { agent_name := agent_name, reason := reason,
      error_message := error_message, step_number := step_number,
      original_objective := original_objective, user_approved := false }
  ({ warnings := st.warnings ++ [warning], audit := st.audit ++ [warning] },
   warning)

/-- One operator response at the approval prompt. -/
inductive UserResponse where
  | yes
  | no
  | showError
  | invalid
  deriving Repr, DecidableEq

/-- `FallbackTracker.request_user_approval` (fallback_tracker.py lines
101-181) on the warning at index `idx` of the in-memory list (the Python
object is aliased by the list, so the yes-branch mutation is visible there
too): consume operator responses until a decisive one; on `yes`, set
`user_approved = True`, persist again (appending a second line) and return
`True`; on `no`, return `False` with no further write; `show_error` and
invalid input re-prompt.  `none` models an operator who never answers. -/
def FallbackTracker.request_user_approval (st : FallbackTracker) (idx : Nat) :
    List UserResponse → Option (FallbackTracker × Bool)
  | [] => none
  | r :: rest =>
      match r with
      | .yes =>
          match st.warnings[idx]? with
          | some w =>
              let w' := { w with user_approved := true }
              some ({ warnings := st.warnings.set idx w',
                      audit := st.audit ++ [w'] }, true)
          | none => none
      | .no => some (st, false)
      | .showError => st.request_user_approval idx rest
      | .invalid => st.request_user_approval idx rest

/-- Record a warning and immediately put it through the approval gate —
the flow of a fallback decision point (the recorded warning is the last
element of the in-memory list). -/
def recordAndApprove (st : FallbackTracker)
    (agent_name reason error_message : String) (step_number : Nat)
    (original_objective : String) (responses : List UserResponse) :
    Option (FallbackTracker × Bool) :=
  let r := st.record_warning agent_name reason error_message step_number
    original_objective
  r.1.request_user_approval (r.1.warnings.length - 1) responses

/-- C4 counterexample: recording a warning and then accepting the fallback
appends a *second* line for that warning to the audit file (first with
`user_approved = false`, then with `user_approved = true`), so the audit
file contains two records for the warning, not exactly one as claimed. -/
theorem claim_C4_counterexample :
    (recordAndApprove ⟨[], []⟩ "research_agent" "no_sources"
        "No sources found" 2 "Find research sources" [.yes] =
      some (⟨[⟨"research_agent", "no_sources", "No sources found", 2,
          "Find research sources", true⟩],
        [⟨"research_agent", "no_sources", "No sources found", 2,
          "Find research sources", false⟩,
         ⟨"research_agent", "no_sources", "No sources found", 2,
          "Find research sources", true⟩]⟩, true))
    ∧ List.countP (fun (w : FallbackWarning) => w.agent_name == "research_agent"
        && w.step_number == 2)
      [⟨"research_agent", "no_sources", "No sources found", 2,
        "Find research sources", false⟩,
       ⟨"research_agent", "no_sources", "No sources found", 2,
        "Find research sources", true⟩] = 2
    ∧ (2 : Nat) ≠ 1 := by
  refine ⟨?_, by decide, by decide⟩
  decide

lemma approval_skips (st : FallbackTracker) (idx : Nat)
    (noise rest : List UserResponse)
    (hnoise : ∀ r ∈ noise, r = .showError ∨ r = .invalid) :
    st.request_user_approval idx (noise ++ rest) =
      st.request_user_approval idx rest := by
  induction noise with
  | nil => rfl
  | cons r tail ih =>
      have hr := hnoise r (List.mem_cons_self r tail)
      have htail : ∀ x ∈ tail, x = .showError ∨ x = .invalid := by
        intro x hx
        exact hnoise x (List.mem_cons_of_mem r hx)
      rcases hr with hr | hr <;> subst hr <;>
        simpa [FallbackTracker.request_user_approval] using ih htail

lemma getLast_concat {γ : Type} (l : List γ) (a : γ) :
    (l ++ [a])[l.length]? = some a := by
  induction l with
  | nil => rfl
  | cons x xs ih => simp

lemma set_concat {γ : Type} (l : List γ) (a b : γ) :
    (l ++ [a]).set l.length b = l ++ [b] := by
  induction l with
  | nil => rfl
  | cons x xs ih => simp

/-- C4 amended: in the fallback approval gate, declining (after any number
of re-prompts) leaves exactly one persisted record for the warning, with
`user_approved = false`, and returns `False` so the caller aborts with the
original error; accepting sets `user_approved = true` on the same in-memory
record (the warnings list still holds exactly one record for the warning)
and persists it again as a *second appended line* in the audit file, which
then holds two records for that warning — first `approved=false`, then
`approved=true`. -/
theorem claim_C4_amended (st : FallbackTracker)
    (agent reason msg : String) (step : Nat) (obj : String)
    (noise rest : List UserResponse)
    (hnoise : ∀ r ∈ noise, r = .showError ∨ r = .invalid) :
    (recordAndApprove st agent reason msg step obj (noise ++ .no :: rest) =
      some (⟨st.warnings ++ [⟨agent, reason, msg, step, obj, false⟩],
        st.audit ++ [⟨agent, reason, msg, step, obj, false⟩]⟩, false))
    ∧ (recordAndApprove st agent reason msg step obj (noise ++ .yes :: rest) =
      some (⟨st.warnings ++ [⟨agent, reason, msg, step, obj, true⟩],
        st.audit ++ [⟨agent, reason, msg, step, obj, false⟩,
          ⟨agent, reason, msg, step, obj, true⟩]⟩, true)) := by
  constructor
  · unfold recordAndApprove FallbackTracker.record_warning
    rw [approval_skips _ _ noise _ hnoise]
    rfl
  · unfold recordAndApprove FallbackTracker.record_warning
    rw [approval_skips _ _ noise _ hnoise]
    simp only [FallbackTracker.request_user_approval, List.length_append,
      List.length_cons, List.length_nil, Nat.add_sub_cancel]
    rw [getLast_concat st.warnings ⟨agent, reason, msg, step, obj, false⟩]
    simp [set_concat]

/-- Witness for the amended C4: one re-prompt then decline keeps the single
`approved=false` audit line; one re-prompt then accept appends the
`approved=true` line as a second record. -/
theorem claim_C4_amended_witness :
    (recordAndApprove ⟨[], []⟩ "writer_agent" "model_error" "timeout" 4
        "Draft the post" [.showError, .no] =
      some (⟨[⟨"writer_agent", "model_error", "timeout", 4,
          "Draft the post", false⟩],
        [⟨"writer_agent", "model_error", "timeout", 4,
          "Draft the post", false⟩]⟩, false))
    ∧ (recordAndApprove ⟨[], []⟩ "writer_agent" "model_error" "timeout" 4
        "Draft the post" [.showError, .yes] =
      some (⟨[⟨"writer_agent", "model_error", "timeout", 4,
          "Draft the post", true⟩],
        [⟨"writer_agent", "model_error", "timeout", 4,
          "Draft the post", false⟩,
         ⟨"writer_agent", "model_error", "timeout", 4,
          "Draft the post", true⟩]⟩, true)) := by
  have h := claim_C4_amended ⟨[], []⟩ "writer_agent" "model_error" "timeout"
    4 "Draft the post" [.showError] [] (by decide)
  exact ⟨h.1, h.2⟩

end LinkedInPipeline
